import Mathlib

/-!
Shallow embedding of the face-detection orchestration layer of
`src/components/FaceDetectionApp.tsx` (a Next.js client component comparing
an OpenCV.js Haar-cascade detector with a face-api.js TinyFaceDetector).

Conventions of the embedding:
* JavaScript numbers that are in practice integers (pixel coordinates,
  image dimensions) are modelled as `Int`.
* Fractional intermediate values (the 25% padding, engine-native float
  boxes) are modelled as `Rat`; the constants involved (0.25, 0.5) are
  exactly representable in IEEE doubles, so rational arithmetic is exact
  here, matching the JS evaluation.
* `Math.round` is JS round-half-towards-positive-infinity, `⌊q + 1/2⌋`.
* An encoded crop (`canvas.toDataURL` output) is determined by the source
  image and the crop region, so crops are represented by their regions.
-/

namespace FaceDetection

/-- JS `Math.round`: round half towards +∞, i.e. `⌊q + 1/2⌋`. -/
def jsRound (q : ℚ) : ℤ := ⌊q + 1/2⌋

/-- Model of `interface FaceRect { x; y; width; height }` — a pixel-space rectangle. -/
structure FaceRect where
  x : ℤ
  y : ℤ
  width : ℤ
  height : ℤ
  deriving Repr, DecidableEq

/-- The source image: only its natural (intrinsic) dimensions matter to the
cropping geometry (`img.naturalWidth` / `img.naturalHeight`). -/
structure Img where
  naturalWidth : ℤ
  naturalHeight : ℤ
  deriving Repr, DecidableEq

/-- The sub-region of the image extracted by one iteration of the
`faces.map` body in `cropFaces` (the `x, y, w, h` passed to
`ctx.drawImage`). -/
structure CropRegion where
  x : ℤ
  y : ℤ
  w : ℤ
  h : ℤ
  deriving Repr, DecidableEq

/-- Source line `const padding = Math.max(face.width, face.height) * 0.25;`. -/
def paddingOf (face : FaceRect) : ℚ :=
  (max face.width face.height : ℤ) * (1/4 : ℚ)

/-- The crop region computed for one face inside `cropFaces`
(`FaceDetectionApp.tsx` lines 249–261):
`x = Math.max(0, Math.round(face.x - padding))`,
`y = Math.max(0, Math.round(face.y - padding))`,
`w = Math.min(img.naturalWidth - x, Math.round(face.width + padding * 2))`,
`h = Math.min(img.naturalHeight - y, Math.round(face.height + padding * 2))`. -/
def cropRegion (img : Img) (face : FaceRect) : CropRegion :=
  let padding : ℚ := paddingOf face
  let x : ℤ := max 0 (jsRound ((face.x : ℚ) - padding))
  let y : ℤ := max 0 (jsRound ((face.y : ℚ) - padding))
  let w : ℤ := min (img.naturalWidth - x) (jsRound ((face.width : ℚ) + padding * 2))
  let h : ℤ := min (img.naturalHeight - y) (jsRound ((face.height : ℚ) + padding * 2))
  ⟨x, y, w, h⟩

/-- Model of `cropFaces(img, faces)`: obtains a 2D context (`ctxOk` records whether
`canvas.getContext("2d")` succeeded; on failure the function returns `[]`),
then maps each face to its padded, clamped crop. -/
def cropFaces (ctxOk : Bool) (img : Img) (faces : List FaceRect) :
    List CropRegion :=
  if ctxOk then faces.map (cropRegion img) else []

/-- Model of `interface DetectionResult { faces; croppedFaces; processingTime }`. -/
structure DetectionResult where
  faces : List FaceRect
  croppedFaces : List CropRegion
  processingTime : ℚ
  deriving Repr, DecidableEq

/-- An engine-native rectangle returned by OpenCV's `detectMultiScale`
(`cv.Rect` fields are C++ integers). -/
structure CVRect where
  x : ℤ
  y : ℤ
  width : ℤ
  height : ℤ
  deriving Repr, DecidableEq

/-- An engine-native bounding box returned by face-api.js's
`detectAllFaces` (`d.box` fields are floats, modelled as rationals). -/
structure FaceApiBox where
  x : ℚ
  y : ℚ
  width : ℚ
  height : ℚ
  deriving Repr, DecidableEq

/-- Model of `detectWithOpenCV` (result assembly, lines 158–182): the engine's
rectangles are copied field-by-field into `FaceRect`s, the faces are
cropped, and the measured duration is attached.  The engine's output
`engineRects` and the elapsed time are parameters of the model; `ctxOk`
records whether `cropFaces` obtained a 2D context. -/
def detectWithOpenCV (img : Img) (ctxOk : Bool) (engineRects : List CVRect)
    (elapsed : ℚ) : DetectionResult :=
  let faceRects : List FaceRect :=
    engineRects.map (fun face => ⟨face.x, face.y, face.width, face.height⟩)
  { faces := faceRects
    croppedFaces := cropFaces ctxOk img faceRects
    processingTime := elapsed }

/-- Model of `detectWithFaceApi` (lines 222–237): each engine box is rounded
coordinate-wise with `Math.round`, then cropping and timing as above. -/
def detectWithFaceApi (img : Img) (ctxOk : Bool)
    (detections : List FaceApiBox) (elapsed : ℚ) : DetectionResult :=
  let faceRects : List FaceRect :=
    detections.map (fun d =>
      ⟨jsRound d.x, jsRound d.y, jsRound d.width, jsRound d.height⟩)
  { faces := faceRects
    croppedFaces := cropFaces ctxOk img faceRects
    processingTime := elapsed }

/-!  ### CDN script loader (`loadScript`, lines 46–66)

`scriptLoadPromises : Map<string, Promise<void>>` memoizes in-flight and
succeeded loads.  A promise is identified by a serial number; appending a
`<script>` element to `document.head` (the network fetch) is recorded in
the `fetches` log.  `onerror` deletes the memo entry; `onload` leaves it
in place. -/

structure LoaderState where
  scriptLoadPromises : List (String × ℕ)
  nextPromiseId : ℕ
  fetches : List String
  deriving Repr, DecidableEq

/-- The empty module state: no memoized promises, nothing fetched. -/
def LoaderState.initial : LoaderState := ⟨[], 0, []⟩

/-- Model of `loadScript(src)`: return the memoized promise if present; otherwise
create a new promise, issue the fetch (append the script element) and
memoize it.  Returns the promise (by id) and the new state. -/
def loadScript (src : String) (s : LoaderState) : ℕ × LoaderState :=
  match s.scriptLoadPromises.find? (fun p => p.1 == src) with
  | some existing => (existing.2, s)
  | none =>
      (s.nextPromiseId,
       { scriptLoadPromises := (src, s.nextPromiseId) :: s.scriptLoadPromises
         nextPromiseId := s.nextPromiseId + 1
         fetches := s.fetches ++ [src] })

/-- Model of the `script.onerror` handler: `scriptLoadPromises.delete(src)` before
rejecting, so a later call retries. -/
def scriptLoadError (src : String) (s : LoaderState) : LoaderState :=
  { s with
    scriptLoadPromises := s.scriptLoadPromises.filter (fun p => p.1 != src) }

/-- Number of network fetches issued so far for `src`. -/
def LoaderState.fetchCount (s : LoaderState) (src : String) : ℕ :=
  (s.fetches.filter (fun u => u == src)).length

/-!  ### Comparison orchestrator (`runDetection`, lines 415–450) -/

/-- Model of `type LibraryStatus = "loading" | "ready" | "error"`. -/
inductive LibraryStatus where
  | loading
  | ready
  | error
  deriving Repr, DecidableEq

/-- The outcome of one settled promise of `Promise.allSettled`. -/
inductive Outcome where
  | fulfilled (value : DetectionResult)
  | rejected (message : String)
  deriving Repr, DecidableEq

/-- The slice of component state that `runDetection` reads and writes. -/
structure UiState where
  opencvResult : Option DetectionResult
  faceApiResult : Option DetectionResult
  opencvError : Option String
  faceApiError : Option String
  isDetecting : Bool
  deriving Repr, DecidableEq

/-- The first async branch passed to `Promise.allSettled`: throw
`"OpenCV not loaded"` unless `opencvStatus === "ready"`, otherwise run the
detector (whose behaviour is the `engine` parameter). -/
def opencvBranch (status : LibraryStatus) (engine : Outcome) : Outcome :=
  if status ≠ LibraryStatus.ready then .rejected "OpenCV not loaded"
  else engine

/-- The second branch: throw `"face-api.js not loaded"` unless
`faceApiStatus === "ready"`. -/
def faceApiBranch (status : LibraryStatus) (engine : Outcome) : Outcome :=
  if status ≠ LibraryStatus.ready then .rejected "face-api.js not loaded"
  else engine

/-- Model of `runDetection` given the two settled outcomes: reset all four
result/error fields and `isDetecting`, then store each branch's value or
its error message (`reason?.message || "Detection failed"` — the model's
rejection already carries the message), independently per engine. -/
def runDetection (opencvRes faceApiRes : Outcome) (s : UiState) : UiState :=
  let s1 : UiState :=
    { s with
      opencvResult := none, faceApiResult := none,
      opencvError := none, faceApiError := none,
      isDetecting := true }
  let s2 : UiState :=
    match opencvRes with
    | .fulfilled v => { s1 with opencvResult := some v }
    | .rejected m => { s1 with opencvError := some m }
  let s3 : UiState :=
    match faceApiRes with
    | .fulfilled v => { s2 with faceApiResult := some v }
    | .rejected m => { s2 with faceApiError := some m }
  { s3 with isDetecting := false }

/-- Model of `runDetection` end to end: guard each branch with its library status,
settle both, and fold the outcomes into the state. -/
def runDetectionFull (opencvStatus faceApiStatus : LibraryStatus)
    (opencvEngine faceApiEngine : Outcome) (s : UiState) : UiState :=
  runDetection (opencvBranch opencvStatus opencvEngine)
    (faceApiBranch faceApiStatus faceApiEngine) s

/-!  ### Result panel rendering (lines 768–838 and 853–923)

Each engine's panel renders the error message when the error state is set,
else the result (including the `faces.length === 0 && "No faces detected"`
paragraph), else nothing. -/

/-- What one engine's result panel shows. -/
inductive PanelView where
  | errorMsg (message : String)
  | resultView (faceCount : ℕ) (noFacesShown : Bool)
  | empty
  deriving Repr, DecidableEq

/-- The OpenCV panel body:
`opencvError ? <error> : opencvResult ? <result…> : null`, where the
result branch shows "No faces detected" iff `faces.length === 0`. -/
def renderOpencvPanel (s : UiState) : PanelView :=
  match s.opencvError with
  | some m => .errorMsg m
  | none =>
      match s.opencvResult with
      | some r => .resultView r.faces.length (r.faces.length == 0)
      | none => .empty

/-- The face-api.js panel body, same shape as the OpenCV panel. -/
def renderFaceApiPanel (s : UiState) : PanelView :=
  match s.faceApiError with
  | some m => .errorMsg m
  | none =>
      match s.faceApiResult with
      | some r => .resultView r.faces.length (r.faces.length == 0)
      | none => .empty

/-!  ### OpenCV native-buffer lifecycle (`detectWithOpenCV`, lines 121–183)

`detectWithOpenCV` allocates four engine-native objects — `mat` (via
`cv.imread`), `gray` (`new cv.Mat()`), `faces` (`new cv.RectVector()`) and
`classifier` (`new cv.CascadeClassifier()`) — and calls `.delete()` on each
once, after the result data is extracted, with no `try`/`finally`.  The
trace model records alloc/delete events in source order; engine calls that
can throw (`detectMultiScale` on the WASM side, `canvas.toDataURL` inside
`cropFaces`) are parameterised by whether they succeed. -/

/-- Alloc/delete events on the four engine-native buffers. -/
inductive CVEvent where
  | allocMat
  | allocGray
  | allocFaces
  | allocClassifier
  | deleteMat
  | deleteGray
  | deleteFaces
  | deleteClassifier
  deriving Repr, DecidableEq

/-- The event trace of one `detectWithOpenCV` call, with a flag telling
whether the call returned normally.  `detectOk` is whether
`classifier.detectMultiScale` returned without throwing, `cropOk` whether
`cropFaces`'s canvas encoding did.  An exception propagates out
immediately: the code has no `try`/`finally`, so no later event runs. -/
def detectWithOpenCVTrace (detectOk cropOk : Bool) :
    List CVEvent × Bool :=
  let allocs : List CVEvent :=
    [.allocMat, .allocGray, .allocFaces, .allocClassifier]
  if !detectOk then (allocs, false)
  else if !cropOk then (allocs, false)
  else (allocs ++ [.deleteMat, .deleteGray, .deleteFaces, .deleteClassifier],
        true)

/-- How many times event `e` occurs in trace `t`. -/
def countEvent (t : List CVEvent) (e : CVEvent) : ℕ :=
  (t.filter (fun x => x == e)).length

/-- The crop rule exactly as the spec words it: a pre-rounded integer
padding `p = round(0.25 * max(width, height))` on each side, origin
`(x - p, y - p)` and size `(width + 2p, height + 2p)` before clamping at
the image edges.  Stated from the spec for comparison with `cropRegion`
(which is taken from the source). -/
def specCropRegionC2 (img : Img) (face : FaceRect) : CropRegion :=
  let p : ℤ := jsRound ((1/4 : ℚ) * (max face.width face.height : ℤ))
  let x : ℤ := max 0 (face.x - p)
  let y : ℤ := max 0 (face.y - p)
  let w : ℤ := min (img.naturalWidth - x) (face.width + 2 * p)
  let h : ℤ := min (img.naturalHeight - y) (face.height + 2 * p)
  ⟨x, y, w, h⟩

/-- The amended crop rule: the padding `p = 0.25 * max(width, height)` is
applied un-rounded; `Math.round` is then applied to the padded origin
`(x - p, y - p)` and the padded size `(width + 2p, height + 2p)`
component-wise, before clamping at the image edges. -/
def amendedCropRegionC2 (img : Img) (face : FaceRect) : CropRegion :=
  let m : ℚ := (max face.width face.height : ℤ)
  let x : ℤ := max 0 (jsRound ((face.x : ℚ) - m / 4))
  let y : ℤ := max 0 (jsRound ((face.y : ℚ) - m / 4))
  ⟨x, y,
    min (img.naturalWidth - x) (jsRound ((face.width : ℚ) + m / 2)),
    min (img.naturalHeight - y) (jsRound ((face.height : ℚ) + m / 2))⟩

end FaceDetection

namespace FaceDetection

/-- C1: for every source image with positive dimensions and every face
rectangle, the crop region computed by `cropFaces` satisfies
`0 ≤ x`, `0 ≤ y`, `x + w ≤ imageWidth` and `y + h ≤ imageHeight`. -/
theorem crop_region_within_bounds (img : Img) (face : FaceRect)
    (hW : 0 < img.naturalWidth) (hH : 0 < img.naturalHeight) :
    0 ≤ (cropRegion img face).x ∧ 0 ≤ (cropRegion img face).y ∧
      (cropRegion img face).x + (cropRegion img face).w ≤ img.naturalWidth ∧
      (cropRegion img face).y + (cropRegion img face).h ≤ img.naturalHeight := by
  simp only [cropRegion]
  refine ⟨le_max_left _ _, le_max_left _ _, ?_, ?_⟩
  · have h := min_le_left (img.naturalWidth - max 0 (jsRound ((face.x : ℚ) - paddingOf face)))
      (jsRound ((face.width : ℚ) + paddingOf face * 2))
    omega
  · have h := min_le_left (img.naturalHeight - max 0 (jsRound ((face.y : ℚ) - paddingOf face)))
      (jsRound ((face.height : ℚ) + paddingOf face * 2))
    omega

/-- Witness for C1 at a concrete 100×100 image and rect. -/
theorem crop_region_within_bounds_witness :
    0 ≤ (cropRegion ⟨100, 100⟩ ⟨40, 40, 20, 20⟩).x ∧
      0 ≤ (cropRegion ⟨100, 100⟩ ⟨40, 40, 20, 20⟩).y ∧
      (cropRegion ⟨100, 100⟩ ⟨40, 40, 20, 20⟩).x +
          (cropRegion ⟨100, 100⟩ ⟨40, 40, 20, 20⟩).w ≤ (100 : ℤ) ∧
      (cropRegion ⟨100, 100⟩ ⟨40, 40, 20, 20⟩).y +
          (cropRegion ⟨100, 100⟩ ⟨40, 40, 20, 20⟩).h ≤ (100 : ℤ) :=
  crop_region_within_bounds ⟨100, 100⟩ ⟨40, 40, 20, 20⟩ (by norm_num) (by norm_num)

/-- C2 counterexample: for the rect `{x:10, y:10, width:5, height:5}` in a
100×100 image the code crops `{x:9, y:9, w:8, h:8}` (it rounds
`width + 2·1.25 = 7.5` up to 8), while the claim's pre-rounded padding
`p = round(1.25) = 1` predicts `{x:9, y:9, w:7, h:7}`. -/
theorem crop_padding_spec_counterexample :
    cropRegion ⟨100, 100⟩ ⟨10, 10, 5, 5⟩ = ⟨9, 9, 8, 8⟩ ∧
      specCropRegionC2 ⟨100, 100⟩ ⟨10, 10, 5, 5⟩ = ⟨9, 9, 7, 7⟩ ∧
      cropRegion ⟨100, 100⟩ ⟨10, 10, 5, 5⟩ ≠
        specCropRegionC2 ⟨100, 100⟩ ⟨10, 10, 5, 5⟩ := by
  refine ⟨?_, ?_, ?_⟩ <;>
    norm_num [cropRegion, specCropRegionC2, paddingOf, jsRound]

/-- C2 amended: the padding `0.25 * max(width, height)` is applied
un-rounded, and `Math.round` is applied afterwards to the padded origin
and the padded size, which are then clamped at the image edges. -/
theorem cropRegion_eq_amended (img : Img) (face : FaceRect) :
    cropRegion img face = amendedCropRegionC2 img face := by
  have h4 : ∀ m : ℚ, m * (1/4) = m / 4 := fun m => by ring
  have h2 : ∀ m : ℚ, m * (1/4) * 2 = m / 2 := fun m => by ring
  have h42 : ∀ m : ℚ, m / 4 * 2 = m / 2 := fun m => by ring
  simp only [cropRegion, amendedCropRegionC2, paddingOf, h4, h2, h42]

/-- C5: a 100×100 image with rect `{x:40, y:40, width:20, height:20}`
yields padding 5 and crop region `{x:35, y:35, w:30, h:30}`. -/
theorem crop_example_100_square :
    paddingOf ⟨40, 40, 20, 20⟩ = 5 ∧
      cropRegion ⟨100, 100⟩ ⟨40, 40, 20, 20⟩ = ⟨35, 35, 30, 30⟩ := by
  refine ⟨?_, ?_⟩ <;> norm_num [cropRegion, paddingOf, jsRound]

/-- C9: with a drawing context available, `cropFaces` produces exactly one
crop per input rect in input order (crop `i` is the crop of rect `i`), so
each adapter's result has as many cropped faces as faces. -/
theorem cropFaces_one_crop_per_rect (img : Img) (faces : List FaceRect) :
    (cropFaces true img faces).length = faces.length ∧
      (∀ i : ℕ, (cropFaces true img faces)[i]? =
        faces[i]?.map (cropRegion img)) ∧
      (∀ (rects : List CVRect) (t : ℚ),
        (detectWithOpenCV img true rects t).croppedFaces.length =
          (detectWithOpenCV img true rects t).faces.length) ∧
      (∀ (boxes : List FaceApiBox) (t : ℚ),
        (detectWithFaceApi img true boxes t).croppedFaces.length =
          (detectWithFaceApi img true boxes t).faces.length) := by
  refine ⟨?_, ?_, ?_, ?_⟩ <;>
    simp [cropFaces, detectWithOpenCV, detectWithFaceApi, List.getElem?_map]

/-- C10: when `canvas.getContext("2d")` fails, `cropFaces` returns the
empty list (no exception), even for a non-empty rect list. -/
theorem cropFaces_no_ctx_returns_empty (img : Img) (faces : List FaceRect) :
    cropFaces false img faces = [] := rfl

/-- C3: after `runDetection`, each engine's result field is `some` exactly
when its error field is `none` (exactly one of {result, error}), and each
engine's result/error fields are a function of its own branch's outcome
alone — so when one branch rejects and the other fulfils, the state shows
the fulfilled value next to the other's error message, and neither branch
disturbs the other. -/
theorem runDetection_per_engine_exclusive (oS fS : LibraryStatus)
    (oE fE : Outcome) (s : UiState) :
    ((runDetectionFull oS fS oE fE s).opencvResult.isSome =
        !(runDetectionFull oS fS oE fE s).opencvError.isSome) ∧
      ((runDetectionFull oS fS oE fE s).faceApiResult.isSome =
        !(runDetectionFull oS fS oE fE s).faceApiError.isSome) ∧
      ((runDetectionFull oS fS oE fE s).opencvResult =
        match opencvBranch oS oE with
        | .fulfilled v => some v
        | .rejected _ => none) ∧
      ((runDetectionFull oS fS oE fE s).opencvError =
        match opencvBranch oS oE with
        | .fulfilled _ => none
        | .rejected m => some m) ∧
      ((runDetectionFull oS fS oE fE s).faceApiResult =
        match faceApiBranch fS fE with
        | .fulfilled v => some v
        | .rejected _ => none) ∧
      ((runDetectionFull oS fS oE fE s).faceApiError =
        match faceApiBranch fS fE with
        | .fulfilled _ => none
        | .rejected m => some m) := by
  cases hO : opencvBranch oS oE <;> cases hF : faceApiBranch fS fE <;>
    simp [runDetectionFull, runDetection, hO, hF]

/-- C4: calling `loadScript` twice for the same URL, starting from a state
with no memoized promise for it, issues exactly one network fetch and
returns the same promise both times; more generally, any call that finds a
memoized (pending or succeeded) promise returns it unchanged without
fetching. -/
theorem loadScript_single_fetch (src : String) (s : LoaderState)
    (h : s.scriptLoadPromises.find? (fun p => p.1 == src) = none) :
    (loadScript src (loadScript src s).2).1 = (loadScript src s).1 ∧
      (loadScript src (loadScript src s).2).2 = (loadScript src s).2 ∧
      ((loadScript src s).2).fetchCount src = s.fetchCount src + 1 ∧
      ((loadScript src (loadScript src s).2).2).fetchCount src =
        s.fetchCount src + 1 ∧
      (∀ (t : LoaderState) (pr : String × ℕ),
        t.scriptLoadPromises.find? (fun p => p.1 == src) = some pr →
          loadScript src t = (pr.2, t)) := by
  have hsecond :
      loadScript src (loadScript src s).2 =
        ((loadScript src s).1, (loadScript src s).2) := by
    simp [loadScript, h]
  refine ⟨by rw [hsecond], by rw [hsecond], ?_, ?_, ?_⟩
  · simp [loadScript, h, LoaderState.fetchCount, List.filter_append]
  · rw [hsecond]
    simp [loadScript, h, LoaderState.fetchCount, List.filter_append]
  · intro t pr hpr
    simp [loadScript, hpr]

/-- Witness for C4 from the initial (empty-cache) loader state. -/
theorem loadScript_single_fetch_witness :
    (loadScript "u" (loadScript "u" LoaderState.initial).2).1 =
        (loadScript "u" LoaderState.initial).1 ∧
      (loadScript "u" (loadScript "u" LoaderState.initial).2).2 =
        (loadScript "u" LoaderState.initial).2 ∧
      ((loadScript "u" LoaderState.initial).2).fetchCount "u" =
        LoaderState.initial.fetchCount "u" + 1 ∧
      ((loadScript "u" (loadScript "u" LoaderState.initial).2).2).fetchCount
          "u" = LoaderState.initial.fetchCount "u" + 1 ∧
      (∀ (t : LoaderState) (pr : String × ℕ),
        t.scriptLoadPromises.find? (fun p => p.1 == "u") = some pr →
          loadScript "u" t = (pr.2, t)) :=
  loadScript_single_fetch "u" LoaderState.initial rfl

/-- C6: a run that completes with zero detected faces yields a
`DetectionResult` whose `croppedFaces` is empty, and the panel for that
engine renders the zero-face result view (showing "No faces detected"),
not an error. -/
theorem zero_faces_empty_crops_no_error (img : Img) (ctxOk : Bool) (t : ℚ)
    (other : Outcome) (s : UiState) :
    (detectWithOpenCV img ctxOk [] t).croppedFaces = [] ∧
      (detectWithFaceApi img ctxOk [] t).croppedFaces = [] ∧
      renderOpencvPanel
          (runDetection (.fulfilled (detectWithOpenCV img ctxOk [] t))
            other s) = .resultView 0 true ∧
      renderFaceApiPanel
          (runDetection other
            (.fulfilled (detectWithFaceApi img ctxOk [] t)) s) =
        .resultView 0 true := by
  cases other <;> cases ctxOk <;>
    simp [detectWithOpenCV, detectWithFaceApi, cropFaces, runDetection,
      renderOpencvPanel, renderFaceApiPanel]

/-- C7 counterexample: the face-api.js adapter does not clamp: an engine
box at `x = -1.5` becomes the `FaceRect` `{x := -1, …}` with a negative
coordinate, so adapter outputs are not always non-negative. -/
theorem faceapi_rect_can_be_negative :
    (detectWithFaceApi ⟨100, 100⟩ true [⟨-(3 : ℚ)/2, 0, 10, 10⟩] 0).faces =
        [⟨-1, 0, 10, 10⟩] ∧
      ¬ (0 : ℤ) ≤ (-1 : ℤ) := by
  refine ⟨?_, by norm_num⟩
  norm_num [detectWithFaceApi, jsRound]

/-- C7 amended: every `FaceRect` either adapter produces has integer
coordinates (the neural adapter rounds each box coordinate with
`Math.round`), and all four fields are non-negative provided the engine's
native rectangles/boxes are non-negative. -/
theorem adapter_rects_nonneg (img : Img) (ctxOk : Bool)
    (rects : List CVRect) (boxes : List FaceApiBox) (t : ℚ)
    (hR : ∀ r ∈ rects, 0 ≤ r.x ∧ 0 ≤ r.y ∧ 0 ≤ r.width ∧ 0 ≤ r.height)
    (hB : ∀ b ∈ boxes, 0 ≤ b.x ∧ 0 ≤ b.y ∧ 0 ≤ b.width ∧ 0 ≤ b.height) :
    (∀ f ∈ (detectWithOpenCV img ctxOk rects t).faces,
        0 ≤ f.x ∧ 0 ≤ f.y ∧ 0 ≤ f.width ∧ 0 ≤ f.height) ∧
      (∀ f ∈ (detectWithFaceApi img ctxOk boxes t).faces,
        0 ≤ f.x ∧ 0 ≤ f.y ∧ 0 ≤ f.width ∧ 0 ≤ f.height) := by
  have hround : ∀ q : ℚ, 0 ≤ q → 0 ≤ jsRound q := by
    intro q hq
    exact Int.le_floor.2 (by push_cast; linarith)
  constructor
  · intro f hf
    simp only [detectWithOpenCV, List.mem_map] at hf
    obtain ⟨r, hr, rfl⟩ := hf
    exact hR r hr
  · intro f hf
    simp only [detectWithFaceApi, List.mem_map] at hf
    obtain ⟨b, hb, rfl⟩ := hf
    obtain ⟨h1, h2, h3, h4⟩ := hB b hb
    exact ⟨hround _ h1, hround _ h2, hround _ h3, hround _ h4⟩

/-- Witness for C7's amended theorem at concrete engine outputs. -/
theorem adapter_rects_nonneg_witness :
    (∀ f ∈ (detectWithOpenCV ⟨100, 100⟩ true [⟨1, 2, 3, 4⟩] 0).faces,
        0 ≤ f.x ∧ 0 ≤ f.y ∧ 0 ≤ f.width ∧ 0 ≤ f.height) ∧
      (∀ f ∈ (detectWithFaceApi ⟨100, 100⟩ true
            [⟨(1 : ℚ)/2, 0, 10, 10⟩] 0).faces,
        0 ≤ f.x ∧ 0 ≤ f.y ∧ 0 ≤ f.width ∧ 0 ≤ f.height) :=
  adapter_rects_nonneg ⟨100, 100⟩ true [⟨1, 2, 3, 4⟩]
    [⟨(1 : ℚ)/2, 0, 10, 10⟩] 0
    (by intro r hr; simp at hr; subst hr; norm_num)
    (by intro b hb; simp at hb; subst hb; norm_num)

/-- C8 counterexample: on the execution path where
`classifier.detectMultiScale` throws, the call does not return normally
and `mat` (allocated once) is never deleted — there is no `try`/`finally`,
so cleanup is skipped on that path. -/
theorem opencv_cleanup_skipped_on_throw :
    (detectWithOpenCVTrace false true).2 = false ∧
      countEvent (detectWithOpenCVTrace false true).1 .allocMat = 1 ∧
      countEvent (detectWithOpenCVTrace false true).1 .deleteMat = 0 := by
  decide

/-- C8 amended: on every execution of `detectWithOpenCV` that returns
normally, each of the four engine-native buffers (`mat`, `gray`, `faces`,
`classifier`) is allocated exactly once and explicitly released exactly
once. -/
theorem opencv_cleanup_on_normal_return (detectOk cropOk : Bool)
    (h : (detectWithOpenCVTrace detectOk cropOk).2 = true) :
    countEvent (detectWithOpenCVTrace detectOk cropOk).1 .allocMat = 1 ∧
      countEvent (detectWithOpenCVTrace detectOk cropOk).1 .allocGray = 1 ∧
      countEvent (detectWithOpenCVTrace detectOk cropOk).1 .allocFaces = 1 ∧
      countEvent (detectWithOpenCVTrace detectOk cropOk).1
        .allocClassifier = 1 ∧
      countEvent (detectWithOpenCVTrace detectOk cropOk).1 .deleteMat = 1 ∧
      countEvent (detectWithOpenCVTrace detectOk cropOk).1 .deleteGray = 1 ∧
      countEvent (detectWithOpenCVTrace detectOk cropOk).1 .deleteFaces = 1 ∧
      countEvent (detectWithOpenCVTrace detectOk cropOk).1
        .deleteClassifier = 1 := by
  cases detectOk <;> cases cropOk <;> revert h <;> decide

/-- Witness for C8's amended theorem on the fully-successful path. -/
theorem opencv_cleanup_on_normal_return_witness :
    countEvent (detectWithOpenCVTrace true true).1 .allocMat = 1 ∧
      countEvent (detectWithOpenCVTrace true true).1 .allocGray = 1 ∧
      countEvent (detectWithOpenCVTrace true true).1 .allocFaces = 1 ∧
      countEvent (detectWithOpenCVTrace true true).1 .allocClassifier = 1 ∧
      countEvent (detectWithOpenCVTrace true true).1 .deleteMat = 1 ∧
      countEvent (detectWithOpenCVTrace true true).1 .deleteGray = 1 ∧
      countEvent (detectWithOpenCVTrace true true).1 .deleteFaces = 1 ∧
      countEvent (detectWithOpenCVTrace true true).1 .deleteClassifier = 1 :=
  opencv_cleanup_on_normal_return true true rfl

end FaceDetection
